import Mathlib

/-!
Verification of the DeckLinkWrapper shim (DeckLinkWrapper.cpp).

The wrapper is a C-callable layer over the DeckLink COM SDK.  Its own logic is
pure bookkeeping over a set of global variables, guarded by null and HRESULT
checks.  We embed that bookkeeping shallowly: the globals become a state
structure, every vendor COM call becomes a field of an environment record
giving that call's result (HRESULT and, where relevant, the produced data),
and each exported function becomes a Lean function from environment, arguments
and state to an HRESULT, a successor state, and the values written through the
caller's output pointers (modelled as Option, with none meaning nothing was
written).  Null pointers passed by the caller are modelled as Bool flags.
Frame pixel buffers are lists of bytes; memcpy of n bytes becomes
List.take n of the source appended to List.drop n of the destination.
Best-effort vendor calls whose results the code ignores (Release, Disable on
cleanup paths, logging) have no counterpart in the environment.
-/

/-- HRESULT values, as 32-bit signed integers.  FAILED is the sign test. -/
def S_OK : Int := 0

def S_FALSE : Int := 1

def E_FAIL : Int := -2147467259

def E_POINTER : Int := -2147467261

def E_INVALIDARG : Int := -2147024809

def E_NOINTERFACE : Int := -2147467262

def STRSAFE_E_INSUFFICIENT_BUFFER : Int := -2147024774

def RPC_E_CHANGED_MODE : Int := -2147417850

/-- FAILED(hr) macro: the HRESULT has its sign bit set. -/
def FAILED (hr : Int) : Bool := decide (hr < 0)

/-- SUCCEEDED(hr) macro. -/
def SUCCEEDED (hr : Int) : Bool := decide (0 ≤ hr)

/-- BMDDisplayMode value bmdModeUnknown (FourCC iunk). -/
def bmdModeUnknown : Int := 1769303659

/-- BMDProfileID FourCC constants from the DeckLink SDK header. -/
def bmdProfileOneSubDeviceFullDuplex : Int := 0x31646664

def bmdProfileOneSubDeviceHalfDuplex : Int := 0x31646864

def bmdProfileTwoSubDevicesFullDuplex : Int := 0x32646664

def bmdProfileTwoSubDevicesHalfDuplex : Int := 0x32646864

def bmdProfileFourSubDevicesHalfDuplex : Int := 0x34646864

/-- BMDProfileIDToString from the source.  The default case formats the raw
value with sprintf; we keep the fixed prefix of that message, which no claim
depends on. -/
def BMDProfileIDToString (profileID : Int) : String :=
  if profileID = bmdProfileOneSubDeviceFullDuplex then "1 SubDevice Full Duplex"
  else if profileID = bmdProfileOneSubDeviceHalfDuplex then "1 SubDevice Half Duplex"
  else if profileID = bmdProfileTwoSubDevicesFullDuplex then "2 SubDevices Full Duplex"
  else if profileID = bmdProfileTwoSubDevicesHalfDuplex then "2 SubDevices Half Duplex"
  else if profileID = bmdProfileFourSubDevicesHalfDuplex then "4 SubDevices Half Duplex"
  else "Unknown Profile ID"

/-- The global variables of DeckLinkWrapper.cpp.  COM interface pointers whose
identity never matters are Bool (non-null or null); devices are abstract Nat
handles so the enumeration lists keep identity; video frames carry their byte
contents. -/
structure WrapperState where
  deckLinkIterator : Bool
  deckLinkProfileManager : Bool
  activeCardProfile : Bool
  deckLinkAPIInformation : Bool
  deckLinkDevices : List Nat
  deckLinkDeviceNames : List String
  availableProfiles : List Nat
  availableProfileNames : List String
  fillDeckLink : Option Nat
  fillDeckLinkOutput : Bool
  fillVideoFrame : Option (List Nat)
  fillDeckLinkConfiguration : Bool
  fillDeckLinkKeyer : Bool
  keyDeckLink : Option Nat
  keyDeckLinkOutput : Bool
  keyVideoFrame : Option (List Nat)
  commonFrameWidth : Int
  commonFrameHeight : Int
  commonFrameDuration : Int
  commonTimeScale : Int
  comInitialized : Bool
  dllInitialized : Bool
  fillDeviceInitialized : Bool
  keyDeviceInitialized : Bool
  keyerEnabled : Bool
deriving Repr, DecidableEq

/-- The state at process start: every global pointer null, every flag false,
every list empty, every common property zero. -/
def initState : WrapperState where
  deckLinkIterator := false
  deckLinkProfileManager := false
  activeCardProfile := false
  deckLinkAPIInformation := false
  deckLinkDevices := []
  deckLinkDeviceNames := []
  availableProfiles := []
  availableProfileNames := []
  fillDeckLink := none
  fillDeckLinkOutput := false
  fillVideoFrame := none
  fillDeckLinkConfiguration := false
  fillDeckLinkKeyer := false
  keyDeckLink := none
  keyDeckLinkOutput := false
  keyVideoFrame := none
  commonFrameWidth := 0
  commonFrameHeight := 0
  commonFrameDuration := 0
  commonTimeScale := 0
  comInitialized := false
  dllInitialized := false
  fillDeviceInitialized := false
  keyDeviceInitialized := false
  keyerEnabled := false

/-- ReleaseSelectedDeviceResources.  The keyer Disable call is best effort and
only happens (with the flag reset) when the keyer was enabled and its
interface is non-null; all fill and key interfaces are released and nulled,
both initialized flags cleared, and the common mode properties zeroed.
The common pixel format global is never changed by the source, so it is not
part of the state. -/
def ReleaseSelectedDeviceResources (s : WrapperState) : WrapperState :=
  { s with
    keyerEnabled := if s.keyerEnabled && s.fillDeckLinkKeyer then false else s.keyerEnabled
    fillDeckLinkKeyer := false
    fillDeckLinkConfiguration := false
    fillVideoFrame := none
    fillDeckLinkOutput := false
    fillDeckLink := none
    fillDeviceInitialized := false
    keyVideoFrame := none
    keyDeckLinkOutput := false
    keyDeckLink := none
    keyDeviceInitialized := false
    commonFrameWidth := 0
    commonFrameHeight := 0
    commonFrameDuration := 0
    commonTimeScale := 0 }

/-- ShutdownDevice.  Every path returns S_OK; resources are released only when
a device flag or device pointer is still set. -/
def ShutdownDevice (s : WrapperState) : Int × WrapperState :=
  if !s.dllInitialized && !s.comInitialized then (S_OK, s)
  else if !s.dllInitialized && s.comInitialized && !s.fillDeviceInitialized
      && !s.keyDeviceInitialized then (S_OK, s)
  else if !s.fillDeviceInitialized && !s.keyDeviceInitialized
      && s.fillDeckLink = none && s.keyDeckLink = none then (S_OK, s)
  else (S_OK, ReleaseSelectedDeviceResources s)

/-- ShutdownDLL.  When the DLL is not initialized it only uninitializes COM if
needed; otherwise it shuts the device down when one looks active, releases the
enumeration and profile lists and every remaining global interface, and
uninitializes COM. -/
def ShutdownDLL (s : WrapperState) : Int × WrapperState :=
  if !s.dllInitialized then
    if s.comInitialized then (S_OK, { s with comInitialized := false }) else (S_OK, s)
  else
    let s1 := if s.fillDeviceInitialized || s.keyDeviceInitialized
        || s.fillDeckLink.isSome || s.keyDeckLink.isSome then (ShutdownDevice s).2 else s
    (S_OK, { s1 with
      deckLinkDevices := []
      deckLinkDeviceNames := []
      availableProfiles := []
      availableProfileNames := []
      activeCardProfile := false
      deckLinkIterator := false
      deckLinkAPIInformation := false
      deckLinkProfileManager := false
      comInitialized := false
      dllInitialized := false })

/-- Vendor results for one profile found by the profile iterator in
InitializeDLL.  idVal is some v when the GetDevice, QueryInterface and GetInt
chain used to name the profile all succeeded with value v, none when any step
of it failed (the source then keeps the default name).  isActive is true when
the IsActive call succeeded reporting an active profile. -/
structure ProfileInfo where
  pid : Nat
  idVal : Option Int
  isActive : Bool
deriving Repr, DecidableEq

/-- The display name a profile gets in the enumeration loop of
InitializeDLL. -/
def profileDisplayName (idVal : Option Int) : String :=
  match idVal with
  | some v => BMDProfileIDToString v
  | none => "Profile (Name N/A)"

/-- Vendor call results consumed by InitializeDLL.  The attribute logging on
the first physical card has no state effect and is not modelled. -/
structure InitDLLEnv where
  coInitMTAHr : Int
  coInitSTAHr : Int
  createIterHr : Int
  createIterOk : Bool
  firstCardOk : Bool
  qiProfileManagerOk : Bool
  profilesIterOk : Bool
  profiles : List ProfileInfo
  apiInfoFromPMOk : Bool
  apiInfoFromIterOk : Bool
deriving Repr, DecidableEq

/-- The iterator-creation step of InitializeDLL: CoCreateInstance runs only
when the global iterator is still null. -/
def dllIterState (env : InitDLLEnv) (s : WrapperState) : WrapperState :=
  if !s.deckLinkIterator then { s with deckLinkIterator := env.createIterOk } else s

/-- The first-physical-card step of InitializeDLL: the profile manager is
queried from the card when a card was found and no manager is held yet. -/
def dllCardPhase (env : InitDLLEnv) (s : WrapperState) : WrapperState :=
  if env.firstCardOk && !s.deckLinkProfileManager then
    { s with deckLinkProfileManager := env.qiProfileManagerOk }
  else s

/-- The profile-enumeration step of InitializeDLL: when a profile manager is
held, the previous profile lists and active profile are discarded and, when
the profile iterator could be obtained, repopulated from it, the active
profile being the first one reporting itself active. -/
def dllProfilesPhase (env : InitDLLEnv) (s : WrapperState) : WrapperState :=
  if s.deckLinkProfileManager then
    if env.profilesIterOk then
      { s with
        availableProfiles := env.profiles.map (fun p => p.pid)
        availableProfileNames := env.profiles.map (fun p => profileDisplayName p.idVal)
        activeCardProfile := env.profiles.any (fun p => p.isActive) }
    else
      { s with availableProfiles := [], availableProfileNames := [],
               activeCardProfile := false }
  else s

/-- The API-information step of InitializeDLL: queried from the profile
manager, or from the iterator as fallback, when not already held. -/
def dllApiInfoPhase (env : InitDLLEnv) (s : WrapperState) : WrapperState :=
  if !s.deckLinkAPIInformation then
    if s.deckLinkProfileManager then
      { s with deckLinkAPIInformation := env.apiInfoFromPMOk }
    else if s.deckLinkIterator then
      { s with deckLinkAPIInformation := env.apiInfoFromIterOk }
    else s
  else s

/-- The body of InitializeDLL after COM initialization succeeded, starting
from the iterator-creation step. -/
def initializeDLLCore (env : InitDLLEnv) (s : WrapperState) : Int × WrapperState :=
  if !s.deckLinkIterator && (FAILED env.createIterHr || !env.createIterOk) then
    (env.createIterHr, dllIterState env s)
  else
    (S_OK, { dllApiInfoPhase env (dllProfilesPhase env (dllCardPhase env (dllIterState env s)))
             with dllInitialized := true })

/-- InitializeDLL.  Returns S_OK immediately when already initialized;
otherwise initializes COM (with the STA fallback on RPC_E_CHANGED_MODE),
creates the device iterator if absent, queries the profile manager from the
first physical card, repopulates the profile lists and active profile, and
obtains the API-information interface. -/
def InitializeDLL (env : InitDLLEnv) (s : WrapperState) : Int × WrapperState :=
  if s.dllInitialized then (S_OK, s)
  else if s.comInitialized then initializeDLLCore env s
  else if env.coInitMTAHr = RPC_E_CHANGED_MODE then
    if FAILED env.coInitSTAHr then (env.coInitSTAHr, s)
    else initializeDLLCore env { s with comInitialized := true }
  else if FAILED env.coInitMTAHr then (env.coInitMTAHr, s)
  else initializeDLLCore env { s with comInitialized := true }

/-- Vendor call results consumed by GetDeviceCount: the result of the
CoCreateInstance that makes a fresh iterator, and the stream of devices the
fresh iterator yields (device handle paired with the result of
GetDisplayName, none when that call failed). -/
structure EnumEnv where
  createHr : Int
  createOk : Bool
  yielded : List (Nat × Option String)
deriving Repr, DecidableEq

/-- GetDeviceCount.  Releases the previous enumeration, obtains a fresh
iterator (CoCreateInstance runs on both the was-null and the
release-and-recreate paths), stores each yielded device whose display name
could be obtained together with that name, and writes the stored count.  The
third component is the value written through count_out (none when nothing was
written). -/
def GetDeviceCount (env : EnumEnv) (countNull : Bool) (s : WrapperState) :
    Int × WrapperState × Option Int :=
  if !s.dllInitialized then (E_FAIL, s, none)
  else if countNull then (E_POINTER, s, none)
  else
    let s1 := { s with deckLinkDevices := [], deckLinkDeviceNames := [],
                       deckLinkIterator := env.createOk }
    if FAILED env.createHr || !env.createOk then (env.createHr, s1, some 0)
    else
      let stored := env.yielded.filterMap (fun p => p.2.map (fun nm => (p.1, nm)))
      (S_OK,
       { s1 with deckLinkDevices := stored.map (fun q => q.1)
                 deckLinkDeviceNames := stored.map (fun q => q.2) },
       some (stored.length : Int))

/-- Result of strncpy_s with _TRUNCATE followed by the source's error
handling: the name fits (bufLen has room for the characters and the NUL) and
is written whole with return 0, or truncation is reported, the source then
stores an empty string when the buffer has any room, and
STRSAFE_E_INSUFFICIENT_BUFFER is returned. -/
def copyNameToBuffer (name : String) (bufLen : Int) : Int × Option String :=
  if (name.length : Int) < bufLen then (S_OK, some name)
  else (STRSAFE_E_INSUFFICIENT_BUFFER, if 0 < bufLen then some "" else none)

/-- GetDeviceName.  The second component is the string written into
nameBuffer, none when nothing was written. -/
def GetDeviceName (index : Int) (bufNull : Bool) (bufLen : Int) (s : WrapperState) :
    Int × Option String :=
  if !s.dllInitialized then (E_FAIL, none)
  else if bufNull then (E_POINTER, none)
  else if index < 0 ∨ (s.deckLinkDeviceNames.length : Int) ≤ index then (E_INVALIDARG, none)
  else copyNameToBuffer (s.deckLinkDeviceNames.getD index.toNat "") bufLen

/-- GetAvailableProfileCount.  The second component is the value written
through count_out. -/
def GetAvailableProfileCount (countNull : Bool) (s : WrapperState) : Int × Option Int :=
  if !s.dllInitialized then (E_FAIL, none)
  else if countNull then (E_POINTER, none)
  else (S_OK, some (s.availableProfileNames.length : Int))

/-- GetAvailableProfileName, the profile analogue of GetDeviceName. -/
def GetAvailableProfileName (index : Int) (bufNull : Bool) (bufLen : Int)
    (s : WrapperState) : Int × Option String :=
  if !s.dllInitialized then (E_FAIL, none)
  else if bufNull then (E_POINTER, none)
  else if index < 0 ∨ (s.availableProfileNames.length : Int) ≤ index then (E_INVALIDARG, none)
  else copyNameToBuffer (s.availableProfileNames.getD index.toNat "") bufLen

/-- Vendor results for the naming chain GetActiveProfileName runs on the
active profile: some v when GetDevice, the attributes QueryInterface and
GetInt all succeeded with profile id v, none otherwise. -/
structure ActiveNameEnv where
  chain : Option Int
deriving Repr, DecidableEq

/-- GetActiveProfileName.  S_FALSE with an empty string when no active
profile was identified; otherwise the name computed from the naming chain is
copied with the usual truncation handling. -/
def GetActiveProfileName (env : ActiveNameEnv) (bufNull : Bool) (bufLen : Int)
    (s : WrapperState) : Int × Option String :=
  if !s.dllInitialized then (E_FAIL, none)
  else if bufNull then (E_POINTER, none)
  else if !s.activeCardProfile then (S_FALSE, if 0 < bufLen then some "" else none)
  else
    let name := match env.chain with
      | some v => BMDProfileIDToString v
      | none => "Active Profile (Name N/A)"
    copyNameToBuffer name bufLen

/-- Vendor results consumed by GetAPIVersion: the HRESULT and value of the
GetInt call on the API-information interface. -/
structure ApiVersionEnv where
  getIntHr : Int
  getIntVal : Int
deriving Repr, DecidableEq

/-- GetAPIVersion.  The second component is the value written through the
version pointer (GetInt writes it on success; the source writes 0 when the
interface is missing or GetInt failed). -/
def GetAPIVersion (env : ApiVersionEnv) (versionNull : Bool) (s : WrapperState) :
    Int × Option Int :=
  if !s.dllInitialized then (E_FAIL, none)
  else if versionNull then (E_POINTER, none)
  else if !s.deckLinkAPIInformation then (E_NOINTERFACE, some 0)
  else if FAILED env.getIntHr then (env.getIntHr, some 0)
  else (S_OK, some env.getIntVal)

/-- One display mode yielded by the display-mode iterator of a device, with
the result of the DoesSupportVideoMode check the source would run on it for
the fixed BGRA pixel format (supportHr and the supported output flag). -/
structure ModeInfo where
  width : Int
  height : Int
  frameDuration : Int
  timeScale : Int
  modeId : Int
  supportHr : Int
  supported : Bool
deriving Repr, DecidableEq

/-- Vendor call results consumed by one run of
InitializeSingleDeckLinkOutput on one device. -/
structure SingleEnv where
  qiOutputHr : Int
  qiOutputOk : Bool
  modeIterHr : Int
  modeIterOk : Bool
  modes : List ModeInfo
  enableOutputHr : Int
  createFrameHr : Int
  createdFrame : Option (List Nat)
  qiConfigOk : Bool
  qiKeyerHr : Int
  qiKeyerOk : Bool
deriving Repr, DecidableEq

/-- The values InitializeSingleDeckLinkOutput leaves in the output pointers
it was given, plus the display mode its search selected (the local variable
the source enables video output with; none when the search did not pick
one). -/
structure SingleOut where
  output : Bool
  frame : Option (List Nat)
  config : Bool
  keyer : Bool
  selected : Option ModeInfo
deriving Repr, DecidableEq

/-- The all-null output record the source establishes before doing any
work. -/
def noSingleOut : SingleOut where
  output := false
  frame := none
  config := false
  keyer := false
  selected := none

/-- The display-mode search loop: the first mode whose width, height, frame
duration and time scale match the request and which DoesSupportVideoMode
reported (S_OK and a true flag) as supported for BGRA output. -/
def findDisplayMode (modes : List ModeInfo) (width height frameRateNum frameRateDenom : Int) :
    Option ModeInfo :=
  modes.find? (fun m =>
    m.width == width && m.height == height &&
    m.frameDuration == frameRateDenom && m.timeScale == frameRateNum &&
    m.supportHr == S_OK && m.supported)

/-- The assignment the mode-search loop performs when it selects a mode: the
common mode properties are stored when they are still zero. -/
def setCommonsIfUnset (m : ModeInfo) (width height : Int) (s : WrapperState) : WrapperState :=
  if s.commonFrameWidth = 0 then
    { s with commonFrameDuration := m.frameDuration
             commonTimeScale := m.timeScale
             commonFrameWidth := width
             commonFrameHeight := height }
  else s

/-- The part of InitializeSingleDeckLinkOutput after the mode search selected
mode m: the bmdModeUnknown guard, EnableVideoOutput, CreateVideoFrame, and
the optional configuration and keyer interface queries.  The state is not
modified further by this phase. -/
def singleModePhase (env : SingleEnv) (wantConfig wantKeyer checkKeyingSupport : Bool)
    (m : ModeInfo) (s : WrapperState) : Int × WrapperState × SingleOut :=
  if m.modeId = bmdModeUnknown then
    (E_FAIL, s, { noSingleOut with selected := some m })
  else if FAILED env.enableOutputHr then
    (env.enableOutputHr, s, { noSingleOut with selected := some m })
  else if FAILED env.createFrameHr || env.createdFrame.isNone then
    (env.createFrameHr, s, { noSingleOut with selected := some m })
  else
    (S_OK, s,
     { output := true
       frame := env.createdFrame
       config := wantConfig && env.qiConfigOk
       keyer := wantKeyer && (checkKeyingSupport
                  && !(FAILED env.qiKeyerHr || !env.qiKeyerOk))
       selected := some m })

/-- InitializeSingleDeckLinkOutput.  Queries the output interface, searches
the display modes, stores the common mode properties when they are still
zero, enables video output on the selected mode, creates the frame, and
queries the configuration and keyer interfaces when their output pointers
were supplied.  wantConfig and wantKeyer model whether the caller passed
non-null deckLinkConfig and deckLinkKeyer pointers. -/
def InitializeSingleDeckLinkOutput (env : SingleEnv)
    (width height frameRateNum frameRateDenom : Int)
    (wantConfig wantKeyer checkKeyingSupport deckLinkNull : Bool)
    (s : WrapperState) : Int × WrapperState × SingleOut :=
  if !s.dllInitialized then (E_FAIL, s, noSingleOut)
  else if deckLinkNull then (E_POINTER, s, noSingleOut)
  else if FAILED env.qiOutputHr || !env.qiOutputOk then (env.qiOutputHr, s, noSingleOut)
  else if FAILED env.modeIterHr || !env.modeIterOk then (env.modeIterHr, s, noSingleOut)
  else
    match findDisplayMode env.modes width height frameRateNum frameRateDenom with
    | none => (E_FAIL, s, noSingleOut)
    | some m =>
      singleModePhase env wantConfig wantKeyer checkKeyingSupport m
        (setCommonsIfUnset m width height s)

/-- Vendor environments for the two device initializations InitializeDevice
performs. -/
structure InitDeviceEnv where
  fill : SingleEnv
  key : SingleEnv
deriving Repr, DecidableEq

/-- The fill-device half of InitializeDevice: assigns g_fillDeckLink from the
enumeration, runs InitializeSingleDeckLinkOutput with the configuration and
keyer output pointers, and stores the four produced fill interfaces into the
globals.  Takes the state already cleared by ReleaseSelectedDeviceResources. -/
def initDeviceFillStage (env : SingleEnv)
    (fillDeviceIndex width height frameRateNum frameRateDenom : Int)
    (s0 : WrapperState) : Int × WrapperState :=
  let r := InitializeSingleDeckLinkOutput env width height frameRateNum frameRateDenom
    true true true false
    { s0 with fillDeckLink := some (s0.deckLinkDevices.getD fillDeviceIndex.toNat 0) }
  (r.1, { r.2.1 with
    fillDeckLinkOutput := r.2.2.output
    fillVideoFrame := r.2.2.frame
    fillDeckLinkConfiguration := r.2.2.config
    fillDeckLinkKeyer := r.2.2.keyer })

/-- The key-device half of InitializeDevice: assigns g_keyDeckLink, runs
InitializeSingleDeckLinkOutput without configuration or keyer pointers, and
stores the produced key output and frame into the globals. -/
def initDeviceKeyStage (env : SingleEnv)
    (keyDeviceIndex width height frameRateNum frameRateDenom : Int)
    (s3 : WrapperState) : Int × WrapperState :=
  let r := InitializeSingleDeckLinkOutput env width height frameRateNum frameRateDenom
    false false false false
    { s3 with keyDeckLink := some (s3.deckLinkDevices.getD keyDeviceIndex.toNat 0) }
  (r.1, { r.2.1 with
    keyDeckLinkOutput := r.2.2.output
    keyVideoFrame := r.2.2.frame })

/-- The error handling after the key-device initialization of
InitializeDevice: full cleanup on failure, otherwise the key flag is set. -/
def initDeviceAfterKey (k : Int × WrapperState) : Int × WrapperState :=
  if FAILED k.1 then (k.1, ReleaseSelectedDeviceResources k.2)
  else (S_OK, { k.2 with keyDeviceInitialized := true })

/-- The error handling after the fill-device initialization of
InitializeDevice: full cleanup on failure, otherwise the fill flag is set and
the key device is initialized. -/
def initDeviceAfterFill (envKey : SingleEnv)
    (keyDeviceIndex width height frameRateNum frameRateDenom : Int)
    (f : Int × WrapperState) : Int × WrapperState :=
  if FAILED f.1 then (f.1, ReleaseSelectedDeviceResources f.2)
  else initDeviceAfterKey (initDeviceKeyStage envKey keyDeviceIndex width height frameRateNum
    frameRateDenom { f.2 with fillDeviceInitialized := true })

/-- InitializeDevice.  Validates the guards and indices, releases prior
state, initializes the fill device (with configuration and keyer
interfaces), then the key device (without them), releasing everything again
on either failure. -/
def InitializeDevice (env : InitDeviceEnv)
    (fillDeviceIndex keyDeviceIndex width height frameRateNum frameRateDenom : Int)
    (s : WrapperState) : Int × WrapperState :=
  if !s.dllInitialized then (E_FAIL, s)
  else if s.fillDeviceInitialized || s.keyDeviceInitialized then (E_FAIL, s)
  else if fillDeviceIndex < 0 ∨ (s.deckLinkDevices.length : Int) ≤ fillDeviceIndex
      ∨ keyDeviceIndex < 0 ∨ (s.deckLinkDevices.length : Int) ≤ keyDeviceIndex then
    (E_INVALIDARG, s)
  else if fillDeviceIndex = keyDeviceIndex then (E_INVALIDARG, s)
  else initDeviceAfterFill env.key keyDeviceIndex width height frameRateNum frameRateDenom
    (initDeviceFillStage env.fill fillDeviceIndex width height frameRateNum frameRateDenom
      (ReleaseSelectedDeviceResources s))

/-- Vendor call results consumed by UpdateExternalKeyingFrames: the GetBytes
calls on the two frames (HRESULT and whether the returned pointer is
non-null) and the two DisplayVideoFrameSync calls. -/
structure UpdateEnv where
  fillGetBytesHr : Int
  fillGetBytesOk : Bool
  keyGetBytesHr : Int
  keyGetBytesOk : Bool
  displayFillHr : Int
  displayKeyHr : Int
deriving Repr, DecidableEq

/-- memcpy of n bytes from src into the front of dst. -/
def memcpyBytes (n : Nat) (src dst : List Nat) : List Nat :=
  src.take n ++ dst.drop n

/-- UpdateExternalKeyingFrames.  After the guards, copies
commonFrameWidth * commonFrameHeight * 4 bytes from each input buffer into
the corresponding frame and displays both frames synchronously.  When
GetBytes reports success with a null pointer the source returns that
(successful) HRESULT without copying, mirrored here by the combined FAILED
or null test on each GetBytes result. -/
def UpdateExternalKeyingFrames (env : UpdateEnv) (fillNull keyNull : Bool)
    (fillBgraData keyBgraData : List Nat) (s : WrapperState) : Int × WrapperState :=
  if !(s.fillDeviceInitialized && s.fillVideoFrame.isSome && s.fillDeckLinkOutput &&
       s.keyDeviceInitialized && s.keyVideoFrame.isSome && s.keyDeckLinkOutput) then
    (E_FAIL, s)
  else if fillNull || keyNull then (E_POINTER, s)
  else if FAILED env.fillGetBytesHr || !env.fillGetBytesOk then (env.fillGetBytesHr, s)
  else
    let n := (s.commonFrameWidth * s.commonFrameHeight * 4).toNat
    let s1 := { s with fillVideoFrame := s.fillVideoFrame.map (memcpyBytes n fillBgraData) }
    if FAILED env.keyGetBytesHr || !env.keyGetBytesOk then (env.keyGetBytesHr, s1)
    else
      let s2 := { s1 with keyVideoFrame := s1.keyVideoFrame.map (memcpyBytes n keyBgraData) }
      if FAILED env.displayFillHr then (env.displayFillHr, s2)
      else if FAILED env.displayKeyHr then (env.displayKeyHr, s2)
      else (S_OK, s2)

/-- Vendor call results for the keyer operations. -/
structure KeyerEnv where
  enableHr : Int
  disableHr : Int
  setLevelHr : Int
deriving Repr, DecidableEq

/-- EnableKeyer.  The commented-out configuration experiments in the source
have no effect; the keyer-enabled flag records exactly whether the vendor
Enable call succeeded. -/
def EnableKeyer (env : KeyerEnv) (useExternalMode : Bool) (s : WrapperState) :
    Int × WrapperState :=
  if !s.fillDeviceInitialized || !s.fillDeckLinkKeyer then (E_FAIL, s)
  else if FAILED env.enableHr then (env.enableHr, { s with keyerEnabled := false })
  else (S_OK, { s with keyerEnabled := true })

/-- DisableKeyer.  When the keyer interface is gone but the flag was left
set, the source corrects the flag while returning E_FAIL; when the keyer is
already disabled it returns S_OK without a vendor call. -/
def DisableKeyer (env : KeyerEnv) (s : WrapperState) : Int × WrapperState :=
  if !s.fillDeviceInitialized || !s.fillDeckLinkKeyer then
    (E_FAIL, if !s.fillDeckLinkKeyer && s.keyerEnabled then
        { s with keyerEnabled := false } else s)
  else if !s.keyerEnabled then (S_OK, s)
  else if FAILED env.disableHr then (env.disableHr, s)
  else (S_OK, { s with keyerEnabled := false })

/-- SetKeyerLevel. -/
def SetKeyerLevel (env : KeyerEnv) (level : Nat) (s : WrapperState) : Int × WrapperState :=
  if !s.fillDeviceInitialized || !s.fillDeckLinkKeyer then (E_FAIL, s)
  else if !s.keyerEnabled then (E_FAIL, s)
  else if FAILED env.setLevelHr then (env.setLevelHr, s)
  else (S_OK, s)

/-- IsKeyerActive.  The second component is the Bool written through the
isActive pointer. -/
def IsKeyerActive (ptrNull : Bool) (s : WrapperState) : Int × Option Bool :=
  if ptrNull then (E_POINTER, none)
  else if !s.fillDeviceInitialized || !s.fillDeckLinkKeyer then (S_OK, some false)
  else (S_OK, some s.keyerEnabled)

/-- One call to any exported function of the wrapper, as a transition on the
global state.  Functions that never write a global variable appear as
identity transitions. -/
inductive Step : WrapperState → WrapperState → Prop
  | initDLL (env : InitDLLEnv) (s : WrapperState) : Step s (InitializeDLL env s).2
  | shutdownDevice (s : WrapperState) : Step s (ShutdownDevice s).2
  | shutdownDLL (s : WrapperState) : Step s (ShutdownDLL s).2
  | getDeviceCount (env : EnumEnv) (b : Bool) (s : WrapperState) :
      Step s (GetDeviceCount env b s).2.1
  | getDeviceName (i : Int) (b : Bool) (l : Int) (s : WrapperState) : Step s s
  | getAvailableProfileCount (b : Bool) (s : WrapperState) : Step s s
  | getAvailableProfileName (i : Int) (b : Bool) (l : Int) (s : WrapperState) : Step s s
  | getActiveProfileName (env : ActiveNameEnv) (b : Bool) (l : Int) (s : WrapperState) :
      Step s s
  | getAPIVersion (env : ApiVersionEnv) (b : Bool) (s : WrapperState) : Step s s
  | initDevice (env : InitDeviceEnv) (fi ki w h n d : Int) (s : WrapperState) :
      Step s (InitializeDevice env fi ki w h n d s).2
  | update (env : UpdateEnv) (bf bk : Bool) (fd kd : List Nat) (s : WrapperState) :
      Step s (UpdateExternalKeyingFrames env bf bk fd kd s).2
  | enableKeyer (env : KeyerEnv) (b : Bool) (s : WrapperState) :
      Step s (EnableKeyer env b s).2
  | disableKeyer (env : KeyerEnv) (s : WrapperState) : Step s (DisableKeyer env s).2
  | setKeyerLevel (env : KeyerEnv) (lv : Nat) (s : WrapperState) :
      Step s (SetKeyerLevel env lv s).2
  | isKeyerActive (b : Bool) (s : WrapperState) : Step s s

/-- States reachable from the freshly loaded library by exported calls. -/
inductive Reachable : WrapperState → Prop
  | init : Reachable initState
  | step {s t : WrapperState} : Reachable s → Step s t → Reachable t

/-- The keyer bookkeeping invariant: the keyer-enabled flag is set only while
the fill device is initialized and its keyer interface is available. -/
def KeyerInv (s : WrapperState) : Prop :=
  s.keyerEnabled = true → s.fillDeviceInitialized = true ∧ s.fillDeckLinkKeyer = true

theorem keyerInv_of_disabled {s : WrapperState} (h : s.keyerEnabled = false) : KeyerInv s := by
  intro hk
  rw [h] at hk
  exact absurd hk (by simp)

theorem release_keyerEnabled {s : WrapperState} (h : KeyerInv s) :
    (ReleaseSelectedDeviceResources s).keyerEnabled = false := by
  unfold ReleaseSelectedDeviceResources
  cases hk : s.keyerEnabled
  · simp [hk]
  · obtain ⟨h1, h2⟩ := h hk
    simp [hk, h2]

theorem release_keyerEnabled_of_disabled {s : WrapperState} (h : s.keyerEnabled = false) :
    (ReleaseSelectedDeviceResources s).keyerEnabled = false := by
  unfold ReleaseSelectedDeviceResources
  simp [h]

theorem keyerInv_release {s : WrapperState} (h : KeyerInv s) :
    KeyerInv (ReleaseSelectedDeviceResources s) :=
  keyerInv_of_disabled (release_keyerEnabled h)

theorem singleModePhase_state (env : SingleEnv) (wc wk ck : Bool) (m : ModeInfo)
    (s : WrapperState) : (singleModePhase env wc wk ck m s).2.1 = s := by
  unfold singleModePhase
  repeat' split
  all_goals rfl

theorem setCommons_keyerEnabled (m : ModeInfo) (w h : Int) (s : WrapperState) :
    (setCommonsIfUnset m w h s).keyerEnabled = s.keyerEnabled := by
  unfold setCommonsIfUnset
  split <;> rfl

theorem single_state_keyerEnabled (env : SingleEnv) (w h n d : Int)
    (wc wk ck dn : Bool) (s : WrapperState) :
    ((InitializeSingleDeckLinkOutput env w h n d wc wk ck dn s).2.1).keyerEnabled
      = s.keyerEnabled := by
  unfold InitializeSingleDeckLinkOutput
  repeat' split
  all_goals (first
    | rfl
    | simp [singleModePhase_state, setCommons_keyerEnabled])

theorem fillStage_keyerEnabled (env : SingleEnv) (fi w h n d : Int) (s0 : WrapperState) :
    ((initDeviceFillStage env fi w h n d s0).2).keyerEnabled = s0.keyerEnabled := by
  unfold initDeviceFillStage
  simp [single_state_keyerEnabled]

theorem keyStage_keyerEnabled (env : SingleEnv) (ki w h n d : Int) (s3 : WrapperState) :
    ((initDeviceKeyStage env ki w h n d s3).2).keyerEnabled = s3.keyerEnabled := by
  unfold initDeviceKeyStage
  simp [single_state_keyerEnabled]

theorem keyerInv_afterKey {k : Int × WrapperState} (h : k.2.keyerEnabled = false) :
    KeyerInv (initDeviceAfterKey k).2 := by
  unfold initDeviceAfterKey
  split
  · exact keyerInv_of_disabled (release_keyerEnabled_of_disabled h)
  · exact keyerInv_of_disabled (by simpa using h)

theorem keyerInv_afterFill {f : Int × WrapperState} (envKey : SingleEnv)
    (ki w h n d : Int) (hf : f.2.keyerEnabled = false) :
    KeyerInv (initDeviceAfterFill envKey ki w h n d f).2 := by
  unfold initDeviceAfterFill
  split
  · exact keyerInv_of_disabled (release_keyerEnabled_of_disabled hf)
  · exact keyerInv_afterKey (by rw [keyStage_keyerEnabled]; simpa using hf)

theorem keyerInv_initializeDevice {s : WrapperState} (env : InitDeviceEnv)
    (fi ki w hh n d : Int) (h : KeyerInv s) :
    KeyerInv (InitializeDevice env fi ki w hh n d s).2 := by
  unfold InitializeDevice
  split
  · exact h
  split
  · exact h
  split
  · exact h
  split
  · exact h
  exact keyerInv_afterFill env.key ki w hh n d
    (by rw [fillStage_keyerEnabled]; exact release_keyerEnabled h)

/-- The three globals the keyer invariant mentions, bundled so that
operations that do not touch them can be handled uniformly. -/
def keyerFields (s : WrapperState) : Bool × Bool × Bool :=
  (s.fillDeviceInitialized, s.fillDeckLinkKeyer, s.keyerEnabled)

theorem keyerInv_of_fieldsEq {s t : WrapperState} (he : keyerFields t = keyerFields s)
    (h : KeyerInv s) : KeyerInv t := by
  unfold keyerFields at he
  simp only [Prod.mk.injEq] at he
  obtain ⟨h1, h2, h3⟩ := he
  intro hk
  rw [h1, h2]
  exact h (h3 ▸ hk)

theorem keyerFields_dllIterState (env : InitDLLEnv) (s : WrapperState) :
    keyerFields (dllIterState env s) = keyerFields s := by
  unfold dllIterState keyerFields
  split
  all_goals rfl

theorem keyerFields_dllCardPhase (env : InitDLLEnv) (s : WrapperState) :
    keyerFields (dllCardPhase env s) = keyerFields s := by
  unfold dllCardPhase keyerFields
  split
  all_goals rfl

theorem keyerFields_dllProfilesPhase (env : InitDLLEnv) (s : WrapperState) :
    keyerFields (dllProfilesPhase env s) = keyerFields s := by
  unfold dllProfilesPhase keyerFields
  repeat' split
  all_goals rfl

theorem keyerFields_dllApiInfoPhase (env : InitDLLEnv) (s : WrapperState) :
    keyerFields (dllApiInfoPhase env s) = keyerFields s := by
  unfold dllApiInfoPhase keyerFields
  repeat' split
  all_goals rfl

theorem keyerFields_withDllInitialized (s : WrapperState) :
    keyerFields { s with dllInitialized := true } = keyerFields s := rfl

theorem keyerFields_withComInitialized (s : WrapperState) :
    keyerFields { s with comInitialized := true } = keyerFields s := rfl

theorem keyerFields_initializeDLL (env : InitDLLEnv) (s : WrapperState) :
    keyerFields (InitializeDLL env s).2 = keyerFields s := by
  unfold InitializeDLL initializeDLLCore
  repeat' split
  all_goals first
    | rfl
    | simp only [keyerFields_withDllInitialized, keyerFields_dllApiInfoPhase,
        keyerFields_dllProfilesPhase, keyerFields_dllCardPhase, keyerFields_dllIterState,
        keyerFields_withComInitialized]

theorem keyerFields_getDeviceCount (env : EnumEnv) (b : Bool) (s : WrapperState) :
    keyerFields (GetDeviceCount env b s).2.1 = keyerFields s := by
  simp only [GetDeviceCount, keyerFields]
  repeat' split
  all_goals rfl

theorem keyerFields_update (env : UpdateEnv) (bf bk : Bool) (fd kd : List Nat)
    (s : WrapperState) :
    keyerFields (UpdateExternalKeyingFrames env bf bk fd kd s).2 = keyerFields s := by
  simp only [UpdateExternalKeyingFrames, keyerFields]
  repeat' split
  all_goals rfl

theorem setKeyerLevel_state (env : KeyerEnv) (lv : Nat) (s : WrapperState) :
    (SetKeyerLevel env lv s).2 = s := by
  unfold SetKeyerLevel
  repeat' split
  all_goals rfl

theorem keyerInv_shutdownDevice {s : WrapperState} (h : KeyerInv s) :
    KeyerInv (ShutdownDevice s).2 := by
  unfold ShutdownDevice
  repeat' split
  all_goals first
    | exact h
    | exact keyerInv_release h

theorem keyerInv_shutdownDLL {s : WrapperState} (h : KeyerInv s) :
    KeyerInv (ShutdownDLL s).2 := by
  simp only [ShutdownDLL]
  split
  · split
    · exact keyerInv_of_fieldsEq rfl h
    · exact h
  · split
    · exact keyerInv_of_fieldsEq rfl (keyerInv_shutdownDevice h)
    · exact keyerInv_of_fieldsEq rfl h

theorem keyerInv_enableKeyer {s : WrapperState} (env : KeyerEnv) (b : Bool)
    (h : KeyerInv s) : KeyerInv (EnableKeyer env b s).2 := by
  unfold EnableKeyer
  split
  · exact h
  next hguard =>
    have hg : s.fillDeviceInitialized = true ∧ s.fillDeckLinkKeyer = true := by
      simpa using hguard
    split
    · exact keyerInv_of_disabled rfl
    · intro _
      exact hg

theorem keyerInv_disableKeyer {s : WrapperState} (env : KeyerEnv)
    (h : KeyerInv s) : KeyerInv (DisableKeyer env s).2 := by
  unfold DisableKeyer
  split
  · split
    · exact keyerInv_of_disabled rfl
    · exact h
  split
  · exact h
  split
  · exact h
  · exact keyerInv_of_disabled rfl

/-- Every exported call preserves the keyer bookkeeping invariant. -/
theorem keyerInv_step {s t : WrapperState} (h : KeyerInv s) (st : Step s t) : KeyerInv t := by
  cases st with
  | initDLL env s => exact keyerInv_of_fieldsEq (keyerFields_initializeDLL env s) h
  | shutdownDevice s => exact keyerInv_shutdownDevice h
  | shutdownDLL s => exact keyerInv_shutdownDLL h
  | getDeviceCount env b s => exact keyerInv_of_fieldsEq (keyerFields_getDeviceCount env b s) h
  | getDeviceName i b l s => exact h
  | getAvailableProfileCount b s => exact h
  | getAvailableProfileName i b l s => exact h
  | getActiveProfileName env b l s => exact h
  | getAPIVersion env b s => exact h
  | initDevice env fi ki w hh n d s => exact keyerInv_initializeDevice env fi ki w hh n d h
  | update env bf bk fd kd s => exact keyerInv_of_fieldsEq (keyerFields_update env bf bk fd kd s) h
  | enableKeyer env b s => exact keyerInv_enableKeyer env b h
  | disableKeyer env s => exact keyerInv_disableKeyer env h
  | setKeyerLevel env lv s =>
      rw [setKeyerLevel_state env lv s]
      exact h
  | isKeyerActive b s => exact h

/-- The keyer bookkeeping invariant holds in every reachable state. -/
theorem keyerInv_reachable {s : WrapperState} (h : Reachable s) : KeyerInv s := by
  induction h with
  | init => exact keyerInv_of_disabled rfl
  | step _ st ih => exact keyerInv_step ih st

theorem singleModePhase_selected (env : SingleEnv) (wc wk ck : Bool) (m : ModeInfo)
    (s : WrapperState) : (singleModePhase env wc wk ck m s).2.2.selected = some m := by
  unfold singleModePhase
  repeat' split
  all_goals rfl

/-- The selected mode reported by InitializeSingleDeckLinkOutput is the one
its display-mode search found. -/
theorem single_selected {env : SingleEnv} {w h n d : Int} {wc wk ck dn : Bool}
    {s : WrapperState} {m : ModeInfo}
    (hsel : (InitializeSingleDeckLinkOutput env w h n d wc wk ck dn s).2.2.selected = some m) :
    findDisplayMode env.modes w h n d = some m := by
  unfold InitializeSingleDeckLinkOutput at hsel
  split at hsel
  · exact absurd hsel (by simp [noSingleOut])
  split at hsel
  · exact absurd hsel (by simp [noSingleOut])
  split at hsel
  · exact absurd hsel (by simp [noSingleOut])
  split at hsel
  · exact absurd hsel (by simp [noSingleOut])
  split at hsel
  · exact absurd hsel (by simp [noSingleOut])
  next m' heq =>
    rw [singleModePhase_selected] at hsel
    exact heq.trans hsel

/-- A mode returned by the display-mode search matches the requested
geometry and rate and passed the BGRA support check. -/
theorem findDisplayMode_spec {modes : List ModeInfo} {w h n d : Int} {m : ModeInfo}
    (hf : findDisplayMode modes w h n d = some m) :
    m.width = w ∧ m.height = h ∧ m.frameDuration = d ∧ m.timeScale = n ∧
    m.supportHr = S_OK ∧ m.supported = true := by
  have hp := List.find?_some hf
  simp only [Bool.and_eq_true, beq_iff_eq] at hp
  obtain ⟨⟨⟨⟨⟨e1, e2⟩, e3⟩, e4⟩, e5⟩, e6⟩ := hp
  exact ⟨e1, e2, e3, e4, e5, e6⟩

theorem setCommons_dllInitialized (m : ModeInfo) (w h : Int) (s : WrapperState) :
    (setCommonsIfUnset m w h s).dllInitialized = s.dllInitialized := by
  unfold setCommonsIfUnset
  split <;> rfl

theorem single_state_dllInitialized (env : SingleEnv) (w h n d : Int)
    (wc wk ck dn : Bool) (s : WrapperState) :
    ((InitializeSingleDeckLinkOutput env w h n d wc wk ck dn s).2.1).dllInitialized
      = s.dllInitialized := by
  unfold InitializeSingleDeckLinkOutput
  repeat' split
  all_goals (first
    | rfl
    | simp [singleModePhase_state, setCommons_dllInitialized])

theorem fillStage_dllInitialized (env : SingleEnv) (fi w h n d : Int) (s0 : WrapperState) :
    ((initDeviceFillStage env fi w h n d s0).2).dllInitialized = s0.dllInitialized := by
  unfold initDeviceFillStage
  simp [single_state_dllInitialized]

/-- All the globals ReleaseSelectedDeviceResources clears: the state carries
no initialized device, no fill or key resources, and zeroed common mode
properties. -/
def deviceCleared (s : WrapperState) : Prop :=
  s.fillDeviceInitialized = false ∧ s.keyDeviceInitialized = false ∧
  s.fillDeckLink = none ∧ s.keyDeckLink = none ∧
  s.fillDeckLinkOutput = false ∧ s.fillVideoFrame = none ∧
  s.fillDeckLinkConfiguration = false ∧ s.fillDeckLinkKeyer = false ∧
  s.keyDeckLinkOutput = false ∧ s.keyVideoFrame = none ∧
  s.commonFrameWidth = 0 ∧ s.commonFrameHeight = 0 ∧
  s.commonFrameDuration = 0 ∧ s.commonTimeScale = 0

theorem release_cleared (s : WrapperState) :
    deviceCleared (ReleaseSelectedDeviceResources s) :=
  ⟨rfl, rfl, rfl, rfl, rfl, rfl, rfl, rfl, rfl, rfl, rfl, rfl, rfl, rfl⟩

theorem afterKey_of_fail {k : Int × WrapperState} (h : FAILED k.1 = true) :
    initDeviceAfterKey k = (k.1, ReleaseSelectedDeviceResources k.2) := by
  unfold initDeviceAfterKey
  rw [if_pos h]

theorem afterKey_of_ok {k : Int × WrapperState} (h : FAILED k.1 = false) :
    initDeviceAfterKey k = (S_OK, { k.2 with keyDeviceInitialized := true }) := by
  unfold initDeviceAfterKey
  rw [if_neg (by simp [h])]

theorem afterKey_cleared {k : Int × WrapperState}
    (h : FAILED (initDeviceAfterKey k).1 = true) :
    deviceCleared (initDeviceAfterKey k).2 := by
  by_cases hF : FAILED k.1 = true
  · rw [afterKey_of_fail hF]
    exact release_cleared _
  · rw [afterKey_of_ok (by simpa using hF)] at h
    exact absurd (show FAILED S_OK = true from h) (by decide)

theorem afterFill_of_fail {f : Int × WrapperState} (ek : SingleEnv) (ki w hh n d : Int)
    (hf : FAILED f.1 = true) :
    initDeviceAfterFill ek ki w hh n d f = (f.1, ReleaseSelectedDeviceResources f.2) := by
  unfold initDeviceAfterFill
  rw [if_pos hf]

theorem afterFill_of_ok {f : Int × WrapperState} (ek : SingleEnv) (ki w hh n d : Int)
    (hf : FAILED f.1 = false) :
    initDeviceAfterFill ek ki w hh n d f
      = initDeviceAfterKey (initDeviceKeyStage ek ki w hh n d
          { f.2 with fillDeviceInitialized := true }) := by
  unfold initDeviceAfterFill
  rw [if_neg (by simp [hf])]

theorem afterFill_cleared {f : Int × WrapperState} (ek : SingleEnv) (ki w hh n d : Int)
    (hf : FAILED (initDeviceAfterFill ek ki w hh n d f).1 = true) :
    deviceCleared (initDeviceAfterFill ek ki w hh n d f).2 := by
  by_cases hF : FAILED f.1 = true
  · rw [afterFill_of_fail ek ki w hh n d hF]
    exact release_cleared _
  · rw [afterFill_of_ok ek ki w hh n d (by simpa using hF)] at hf ⊢
    exact afterKey_cleared hf

/-- Basic COM contract for the vendor calls a device initialization makes: a
successful HRESULT comes with a non-null produced interface or frame.  Real
COM guarantees this for QueryInterface and object-creating calls; the model
needs it stated because the environment is otherwise unconstrained. -/
def comCoherent (e : SingleEnv) : Prop :=
  (FAILED e.qiOutputHr = false → e.qiOutputOk = true) ∧
  (FAILED e.modeIterHr = false → e.modeIterOk = true) ∧
  (FAILED e.createFrameHr = false → e.createdFrame.isSome = true)

/-- When the display-mode search comes up empty on a coherent environment,
InitializeSingleDeckLinkOutput returns a failing HRESULT. -/
theorem single_no_mode_fails {e : SingleEnv} {w h n d : Int} (wc wk ck : Bool)
    {s : WrapperState} (hc : comCoherent e) (hdll : s.dllInitialized = true)
    (hnone : findDisplayMode e.modes w h n d = none) :
    FAILED (InitializeSingleDeckLinkOutput e w h n d wc wk ck false s).1 = true := by
  unfold InitializeSingleDeckLinkOutput
  rw [if_neg (by simp [hdll]), if_neg (by simp)]
  split
  · next hcond =>
      show FAILED e.qiOutputHr = true
      cases hF : FAILED e.qiOutputHr
      · rw [hF, hc.1 hF] at hcond
        exact absurd hcond (by simp)
      · rfl
  split
  · next hcond =>
      show FAILED e.modeIterHr = true
      cases hF : FAILED e.modeIterHr
      · rw [hF, hc.2.1 hF] at hcond
        exact absurd hcond (by simp)
      · rfl
  rw [hnone]
  exact (by decide : FAILED E_FAIL = true)

/-- A state with the library initialized and nothing else, for concrete
evaluations. -/
def sDll : WrapperState := { initState with dllInitialized := true }

/-- A library-initialized state holding one enumerated device name and one
profile name. -/
def sNames : WrapperState :=
  { initState with
    dllInitialized := true
    deckLinkDevices := [7]
    deckLinkDeviceNames := ["DeckLink Duo (1)"]
    availableProfiles := [3]
    availableProfileNames := ["2 SubDevices Half Duplex"] }

/-- A state with both output devices initialized and one 1x1 BGRA frame on
each, for concrete evaluations of the frame-update path. -/
def sReady : WrapperState :=
  { initState with
    dllInitialized := true
    fillDeviceInitialized := true
    fillDeckLinkOutput := true
    fillVideoFrame := some [1, 2, 3, 4]
    keyDeviceInitialized := true
    keyDeckLinkOutput := true
    keyVideoFrame := some [5, 6, 7, 8]
    commonFrameWidth := 1
    commonFrameHeight := 1
    commonFrameDuration := 1000
    commonTimeScale := 30000 }

/-- A state with the fill device initialized and a keyer interface held. -/
def sKeyer : WrapperState :=
  { initState with
    dllInitialized := true
    fillDeviceInitialized := true
    fillDeckLinkKeyer := true }

/-- C2: while g_dllInitialized is false, GetDeviceCount, GetDeviceName,
GetAvailableProfileCount, GetAvailableProfileName, GetActiveProfileName,
GetAPIVersion and InitializeDevice all return E_FAIL, leave the global state
unchanged, and write nothing through their pointers. -/
theorem uninitialized_ops_fail :
    ∀ s : WrapperState, s.dllInitialized = false →
      (∀ env b, GetDeviceCount env b s = (E_FAIL, s, none)) ∧
      (∀ i b l, GetDeviceName i b l s = (E_FAIL, none)) ∧
      (∀ b, GetAvailableProfileCount b s = (E_FAIL, none)) ∧
      (∀ i b l, GetAvailableProfileName i b l s = (E_FAIL, none)) ∧
      (∀ env b l, GetActiveProfileName env b l s = (E_FAIL, none)) ∧
      (∀ env b, GetAPIVersion env b s = (E_FAIL, none)) ∧
      (∀ env fi ki w h n d, InitializeDevice env fi ki w h n d s = (E_FAIL, s)) := by
  intro s hs
  refine ⟨?_, ?_, ?_, ?_, ?_, ?_, ?_⟩ <;> intros <;>
    simp [GetDeviceCount, GetDeviceName, GetAvailableProfileCount, GetAvailableProfileName,
      GetActiveProfileName, GetAPIVersion, InitializeDevice, hs]

theorem uninitialized_ops_fail_witness :
    initState.dllInitialized = false ∧
    GetDeviceCount ⟨S_OK, true, []⟩ true initState = (E_FAIL, initState, none) ∧
    GetDeviceName 0 false 64 initState = (E_FAIL, none) ∧
    GetAvailableProfileCount false initState = (E_FAIL, none) ∧
    GetAvailableProfileName 0 false 64 initState = (E_FAIL, none) ∧
    GetActiveProfileName ⟨none⟩ false 64 initState = (E_FAIL, none) ∧
    GetAPIVersion ⟨S_OK, 0⟩ false initState = (E_FAIL, none) ∧
    InitializeDevice ⟨⟨S_OK, true, S_OK, true, [], S_OK, S_OK, some [], true, S_OK, true⟩,
        ⟨S_OK, true, S_OK, true, [], S_OK, S_OK, some [], true, S_OK, true⟩⟩
      0 1 1920 1080 30000 1000 initState = (E_FAIL, initState) :=
  ⟨rfl,
   (uninitialized_ops_fail initState rfl).1 _ _,
   (uninitialized_ops_fail initState rfl).2.1 _ _ _,
   (uninitialized_ops_fail initState rfl).2.2.1 _,
   (uninitialized_ops_fail initState rfl).2.2.2.1 _ _ _,
   (uninitialized_ops_fail initState rfl).2.2.2.2.1 _ _ _,
   (uninitialized_ops_fail initState rfl).2.2.2.2.2.1 _ _,
   (uninitialized_ops_fail initState rfl).2.2.2.2.2.2 _ _ _ _ _ _ _⟩

/-- C10: InitializeDLL on an already-initialized library returns S_OK with
the state unchanged, and ShutdownDevice and ShutdownDLL return S_OK in every
state (in particular when no device, or no library, is initialized). -/
theorem lifecycle_idempotent :
    (∀ env (s : WrapperState), s.dllInitialized = true → InitializeDLL env s = (S_OK, s)) ∧
    (∀ s : WrapperState, (ShutdownDevice s).1 = S_OK) ∧
    (∀ s : WrapperState, (ShutdownDLL s).1 = S_OK) := by
  refine ⟨?_, ?_, ?_⟩
  · intro env s hs
    simp [InitializeDLL, hs]
  · intro s
    unfold ShutdownDevice
    repeat' split
    all_goals rfl
  · intro s
    unfold ShutdownDLL
    repeat' split
    all_goals rfl

theorem lifecycle_idempotent_witness :
    sDll.dllInitialized = true ∧
    InitializeDLL ⟨S_OK, S_OK, S_OK, true, true, true, true, [], true, true⟩ sDll
      = (S_OK, sDll) ∧
    (ShutdownDevice initState).1 = S_OK ∧
    (ShutdownDLL sDll).1 = S_OK :=
  ⟨rfl,
   lifecycle_idempotent.1 _ sDll rfl,
   lifecycle_idempotent.2.1 initState,
   lifecycle_idempotent.2.2 sDll⟩

/-- C3: with the library initialized and a non-null buffer, GetDeviceName
writes the stored name at an in-range index (when the buffer has room for it
and its terminator) and returns S_OK, returns E_INVALIDARG writing nothing
for a negative or too-large index, and GetAvailableProfileName behaves the
same way over the profile-name list. -/
theorem name_lookup_by_index :
    ∀ s : WrapperState, s.dllInitialized = true →
      (∀ idx bufLen : Int, 0 ≤ idx → idx < (s.deckLinkDeviceNames.length : Int) →
        ((s.deckLinkDeviceNames.getD idx.toNat "").length : Int) < bufLen →
        GetDeviceName idx false bufLen s
          = (S_OK, some (s.deckLinkDeviceNames.getD idx.toNat ""))) ∧
      (∀ idx bufLen : Int, idx < 0 ∨ (s.deckLinkDeviceNames.length : Int) ≤ idx →
        GetDeviceName idx false bufLen s = (E_INVALIDARG, none)) ∧
      (∀ idx bufLen : Int, 0 ≤ idx → idx < (s.availableProfileNames.length : Int) →
        ((s.availableProfileNames.getD idx.toNat "").length : Int) < bufLen →
        GetAvailableProfileName idx false bufLen s
          = (S_OK, some (s.availableProfileNames.getD idx.toNat ""))) ∧
      (∀ idx bufLen : Int, idx < 0 ∨ (s.availableProfileNames.length : Int) ≤ idx →
        GetAvailableProfileName idx false bufLen s = (E_INVALIDARG, none)) := by
  intro s hs
  refine ⟨?_, ?_, ?_, ?_⟩
  · intro idx bufLen h0 hlt hfit
    have hr : ¬(idx < 0 ∨ (s.deckLinkDeviceNames.length : Int) ≤ idx) := by omega
    unfold GetDeviceName copyNameToBuffer
    rw [if_neg (by simp [hs]), if_neg (by simp), if_neg hr, if_pos hfit]
  · intro idx bufLen hout
    simp [GetDeviceName, hs, hout]
  · intro idx bufLen h0 hlt hfit
    have hr : ¬(idx < 0 ∨ (s.availableProfileNames.length : Int) ≤ idx) := by omega
    unfold GetAvailableProfileName copyNameToBuffer
    rw [if_neg (by simp [hs]), if_neg (by simp), if_neg hr, if_pos hfit]
  · intro idx bufLen hout
    simp [GetAvailableProfileName, hs, hout]

theorem name_lookup_by_index_witness :
    sNames.dllInitialized = true ∧
    GetDeviceName 0 false 64 sNames = (S_OK, some "DeckLink Duo (1)") ∧
    GetDeviceName 1 false 64 sNames = (E_INVALIDARG, none) ∧
    GetAvailableProfileName 0 false 64 sNames = (S_OK, some "2 SubDevices Half Duplex") ∧
    GetAvailableProfileName (-1) false 64 sNames = (E_INVALIDARG, none) :=
  ⟨rfl,
   (name_lookup_by_index sNames rfl).1 0 64 (by decide) (by decide) (by decide),
   (name_lookup_by_index sNames rfl).2.1 1 64 (by decide),
   (name_lookup_by_index sNames rfl).2.2.1 0 64 (by decide) (by decide) (by decide),
   (name_lookup_by_index sNames rfl).2.2.2 (-1) 64 (by decide)⟩

/-- C4, counterexample: GetDeviceCount called with a null count_out pointer
in a state where the library is not initialized returns E_FAIL, not
E_POINTER, because the initialization guard runs before the null check.  The
claim that every listed function returns E_POINTER whenever its pointer is
null is therefore false as stated. -/
theorem null_pointer_not_always_EPOINTER :
    (GetDeviceCount ⟨S_OK, true, []⟩ true initState).1 = E_FAIL ∧ E_FAIL ≠ E_POINTER := by
  refine ⟨rfl, ?_⟩
  decide

/-- C4, amended: each listed function returns E_POINTER on a null pointer,
writing nothing through it, once its initialization guards pass: the six
library-level queries require g_dllInitialized, UpdateExternalKeyingFrames
requires both devices initialized with their frames and outputs present, and
IsKeyerActive checks its pointer first and so returns E_POINTER in every
state. -/
theorem null_pointer_rejected :
    (∀ env (s : WrapperState), s.dllInitialized = true →
      GetDeviceCount env true s = (E_POINTER, s, none)) ∧
    (∀ (i l : Int) (s : WrapperState), s.dllInitialized = true →
      GetDeviceName i true l s = (E_POINTER, none)) ∧
    (∀ s : WrapperState, s.dllInitialized = true →
      GetAvailableProfileCount true s = (E_POINTER, none)) ∧
    (∀ (i l : Int) (s : WrapperState), s.dllInitialized = true →
      GetAvailableProfileName i true l s = (E_POINTER, none)) ∧
    (∀ env (l : Int) (s : WrapperState), s.dllInitialized = true →
      GetActiveProfileName env true l s = (E_POINTER, none)) ∧
    (∀ env (s : WrapperState), s.dllInitialized = true →
      GetAPIVersion env true s = (E_POINTER, none)) ∧
    (∀ env (bf bk : Bool) fd kd (s : WrapperState),
      s.fillDeviceInitialized = true → s.fillVideoFrame.isSome = true →
      s.fillDeckLinkOutput = true → s.keyDeviceInitialized = true →
      s.keyVideoFrame.isSome = true → s.keyDeckLinkOutput = true →
      (bf || bk) = true →
      UpdateExternalKeyingFrames env bf bk fd kd s = (E_POINTER, s)) ∧
    (∀ s : WrapperState, IsKeyerActive true s = (E_POINTER, none)) := by
  refine ⟨?_, ?_, ?_, ?_, ?_, ?_, ?_, ?_⟩
  · intro env s hs
    simp [GetDeviceCount, hs]
  · intro i l s hs
    simp [GetDeviceName, hs]
  · intro s hs
    simp [GetAvailableProfileCount, hs]
  · intro i l s hs
    simp [GetAvailableProfileName, hs]
  · intro env l s hs
    simp [GetActiveProfileName, hs]
  · intro env s hs
    simp [GetAPIVersion, hs]
  · intro env bf bk fd kd s h1 h2 h3 h4 h5 h6 hb
    simp [UpdateExternalKeyingFrames, h1, h2, h3, h4, h5, h6, hb]
  · intro s
    simp [IsKeyerActive]

theorem null_pointer_rejected_witness :
    sDll.dllInitialized = true ∧
    GetDeviceCount ⟨S_OK, true, []⟩ true sDll = (E_POINTER, sDll, none) ∧
    GetDeviceName 0 true 64 sDll = (E_POINTER, none) ∧
    GetAvailableProfileCount true sDll = (E_POINTER, none) ∧
    GetAvailableProfileName 0 true 64 sDll = (E_POINTER, none) ∧
    GetActiveProfileName ⟨none⟩ true 64 sDll = (E_POINTER, none) ∧
    GetAPIVersion ⟨S_OK, 0⟩ true sDll = (E_POINTER, none) ∧
    UpdateExternalKeyingFrames ⟨S_OK, true, S_OK, true, S_OK, S_OK⟩ true false [] [] sReady
      = (E_POINTER, sReady) ∧
    IsKeyerActive true initState = (E_POINTER, none) :=
  ⟨rfl,
   null_pointer_rejected.1 _ sDll rfl,
   null_pointer_rejected.2.1 0 64 sDll rfl,
   null_pointer_rejected.2.2.1 sDll rfl,
   null_pointer_rejected.2.2.2.1 0 64 sDll rfl,
   null_pointer_rejected.2.2.2.2.1 _ 64 sDll rfl,
   null_pointer_rejected.2.2.2.2.2.1 _ sDll rfl,
   null_pointer_rejected.2.2.2.2.2.2.1 _ true false [] [] sReady rfl rfl rfl rfl rfl rfl rfl,
   null_pointer_rejected.2.2.2.2.2.2.2 initState⟩

/-- C1: with both devices initialized, both frames present and both GetBytes
and DisplayVideoFrameSync calls succeeding, UpdateExternalKeyingFrames
overwrites the first commonFrameWidth * commonFrameHeight * 4 bytes of the
fill frame with fillBgraData and of the key frame with keyBgraData, leaves
everything else unchanged, and returns S_OK. -/
theorem frame_upload_copies :
    ∀ env (fd kd fb kb : List Nat) (s : WrapperState),
      s.fillDeviceInitialized = true → s.fillVideoFrame = some fb →
      s.fillDeckLinkOutput = true →
      s.keyDeviceInitialized = true → s.keyVideoFrame = some kb →
      s.keyDeckLinkOutput = true →
      FAILED env.fillGetBytesHr = false → env.fillGetBytesOk = true →
      FAILED env.keyGetBytesHr = false → env.keyGetBytesOk = true →
      FAILED env.displayFillHr = false → FAILED env.displayKeyHr = false →
      UpdateExternalKeyingFrames env false false fd kd s =
        (S_OK, { s with
          fillVideoFrame :=
            some (memcpyBytes (s.commonFrameWidth * s.commonFrameHeight * 4).toNat fd fb)
          keyVideoFrame :=
            some (memcpyBytes (s.commonFrameWidth * s.commonFrameHeight * 4).toNat kd kb) }) := by
  intro env fd kd fb kb s h1 h2 h3 h4 h5 h6 g1 g2 g3 g4 g5 g6
  simp [UpdateExternalKeyingFrames, h1, h2, h3, h4, h5, h6, g1, g2, g3, g4, g5, g6]

theorem frame_upload_copies_witness :
    sReady.fillDeviceInitialized = true ∧ sReady.fillVideoFrame = some [1, 2, 3, 4] ∧
    sReady.keyDeviceInitialized = true ∧ sReady.keyVideoFrame = some [5, 6, 7, 8] ∧
    UpdateExternalKeyingFrames ⟨S_OK, true, S_OK, true, S_OK, S_OK⟩ false false
        [9, 9, 9, 9] [8, 8, 8, 8] sReady =
      (S_OK, { sReady with
        fillVideoFrame := some [9, 9, 9, 9]
        keyVideoFrame := some [8, 8, 8, 8] }) :=
  ⟨rfl, rfl, rfl, rfl,
   frame_upload_copies ⟨S_OK, true, S_OK, true, S_OK, S_OK⟩ [9, 9, 9, 9] [8, 8, 8, 8]
     [1, 2, 3, 4] [5, 6, 7, 8] sReady rfl rfl rfl rfl rfl rfl rfl rfl rfl rfl rfl rfl⟩

/-- C8: with the library initialized, a non-null count pointer and a fresh
iterator successfully created, GetDeviceCount discards the previous
enumeration, stores exactly the yielded devices whose display name could be
obtained together with those names, writes the stored count through
count_out, and returns S_OK. -/
theorem device_enumeration :
    ∀ env (s : WrapperState), s.dllInitialized = true →
      FAILED env.createHr = false → env.createOk = true →
      GetDeviceCount env false s =
        (S_OK,
         { s with
            deckLinkIterator := true
            deckLinkDevices :=
              (env.yielded.filterMap (fun p => p.2.map (fun nm => (p.1, nm)))).map
                (fun q => q.1)
            deckLinkDeviceNames :=
              (env.yielded.filterMap (fun p => p.2.map (fun nm => (p.1, nm)))).map
                (fun q => q.2) },
         some ((env.yielded.filterMap (fun p => p.2.map (fun nm => (p.1, nm)))).length : Int))
    := by
  intro env s hs hc ho
  simp [GetDeviceCount, hs, hc, ho]

theorem device_enumeration_witness :
    sDll.dllInitialized = true ∧ FAILED S_OK = false ∧
    GetDeviceCount ⟨S_OK, true, [(1, some "DeckLink Duo (1)"), (2, none)]⟩ false sDll =
      (S_OK,
       { sDll with
          deckLinkIterator := true
          deckLinkDevices := [1]
          deckLinkDeviceNames := ["DeckLink Duo (1)"] },
       some 1) :=
  ⟨rfl, by decide,
   device_enumeration ⟨S_OK, true, [(1, some "DeckLink Duo (1)"), (2, none)]⟩ sDll rfl
     (by decide) rfl⟩

/-- C6: with the library initialized and no device initialized,
InitializeDevice returns E_INVALIDARG and leaves the state unchanged
whenever the fill and key indices are equal, or either index is negative or
not below the number of enumerated devices. -/
theorem invalid_device_indices :
    ∀ env (fi ki w hh n d : Int) (s : WrapperState),
      s.dllInitialized = true → s.fillDeviceInitialized = false →
      s.keyDeviceInitialized = false →
      (fi = ki ∨ fi < 0 ∨ (s.deckLinkDevices.length : Int) ≤ fi ∨ ki < 0 ∨
        (s.deckLinkDevices.length : Int) ≤ ki) →
      InitializeDevice env fi ki w hh n d s = (E_INVALIDARG, s) := by
  intro env fi ki w hh n d s h1 h2 h3 hbad
  unfold InitializeDevice
  rw [if_neg (by simp [h1]), if_neg (by simp [h2, h3])]
  by_cases hr : fi < 0 ∨ (s.deckLinkDevices.length : Int) ≤ fi ∨ ki < 0 ∨
      (s.deckLinkDevices.length : Int) ≤ ki
  · rw [if_pos hr]
  · have heq : fi = ki := by tauto
    rw [if_neg hr, if_pos heq]

/-- A library-initialized state holding two enumerated devices, for concrete
evaluations of InitializeDevice. -/
def sTwoDevs : WrapperState :=
  { initState with
    dllInitialized := true
    deckLinkDevices := [7, 8]
    deckLinkDeviceNames := ["DeckLink Duo (1)", "DeckLink Duo (2)"] }

/-- A device environment whose display-mode iterator yields no modes at
all. -/
def envNoModes : SingleEnv :=
  ⟨S_OK, true, S_OK, true, [], S_OK, S_OK, some [], true, S_OK, true⟩

theorem invalid_device_indices_witness :
    sTwoDevs.dllInitialized = true ∧ sTwoDevs.fillDeviceInitialized = false ∧
    InitializeDevice ⟨envNoModes, envNoModes⟩ 1 1 1920 1080 30000 1000 sTwoDevs
      = (E_INVALIDARG, sTwoDevs) ∧
    InitializeDevice ⟨envNoModes, envNoModes⟩ 0 2 1920 1080 30000 1000 sTwoDevs
      = (E_INVALIDARG, sTwoDevs) :=
  ⟨rfl, rfl,
   invalid_device_indices ⟨envNoModes, envNoModes⟩ 1 1 1920 1080 30000 1000 sTwoDevs
     rfl rfl rfl (Or.inl rfl),
   invalid_device_indices ⟨envNoModes, envNoModes⟩ 0 2 1920 1080 30000 1000 sTwoDevs
     rfl rfl rfl (by right; right; right; right; decide)⟩

/-- C9: when the argument checks of InitializeDevice pass but initialization
fails for any reason, the result state carries no initialized device, no fill
or key resources, and zeroed common frame properties, exactly as
ReleaseSelectedDeviceResources leaves them. -/
theorem initializeDevice_atomic :
    ∀ env (fi ki w hh n d : Int) (s : WrapperState),
      s.dllInitialized = true → s.fillDeviceInitialized = false →
      s.keyDeviceInitialized = false →
      ¬(fi < 0 ∨ (s.deckLinkDevices.length : Int) ≤ fi ∨ ki < 0 ∨
        (s.deckLinkDevices.length : Int) ≤ ki) →
      fi ≠ ki →
      FAILED (InitializeDevice env fi ki w hh n d s).1 = true →
      deviceCleared (InitializeDevice env fi ki w hh n d s).2 := by
  intro env fi ki w hh n d s h1 h2 h3 h4 h5 hf
  unfold InitializeDevice at hf ⊢
  rw [if_neg (by simp [h1]), if_neg (by simp [h2, h3]), if_neg h4, if_neg h5] at hf ⊢
  exact afterFill_cleared env.key ki w hh n d hf

theorem initializeDevice_atomic_witness :
    sTwoDevs.dllInitialized = true ∧
    FAILED (InitializeDevice ⟨envNoModes, envNoModes⟩ 0 1 1920 1080 30000 1000
      sTwoDevs).1 = true ∧
    deviceCleared (InitializeDevice ⟨envNoModes, envNoModes⟩ 0 1 1920 1080 30000 1000
      sTwoDevs).2 :=
  ⟨rfl, by decide,
   initializeDevice_atomic ⟨envNoModes, envNoModes⟩ 0 1 1920 1080 30000 1000 sTwoDevs
     rfl rfl rfl (by decide) (by decide) (by decide)⟩

theorem fillStage_fst (env : SingleEnv) (fi w hh n d : Int) (s0 : WrapperState) :
    (initDeviceFillStage env fi w hh n d s0).1
      = (InitializeSingleDeckLinkOutput env w hh n d true true true false
          { s0 with fillDeckLink := some (s0.deckLinkDevices.getD fi.toNat 0) }).1 := rfl

theorem keyStage_fst (env : SingleEnv) (ki w hh n d : Int) (s3 : WrapperState) :
    (initDeviceKeyStage env ki w hh n d s3).1
      = (InitializeSingleDeckLinkOutput env w hh n d false false false false
          { s3 with keyDeckLink := some (s3.deckLinkDevices.getD ki.toNat 0) }).1 := rfl

/-- A 1080p29.97-style display mode that matches a 1920x1080 30000/1000
request and supports BGRA output. -/
def mode1080 : ModeInfo := ⟨1920, 1080, 1000, 30000, 100, S_OK, true⟩

/-- A device environment yielding one matching display mode and succeeding
on every vendor call. -/
def envGood : SingleEnv :=
  ⟨S_OK, true, S_OK, true, [mode1080], S_OK, S_OK, some [], true, S_OK, true⟩

/-- C5: the display mode InitializeSingleDeckLinkOutput selects is the first
one from the device's own mode list whose width, height, frame duration and
time scale equal the request and which the device reports as supported for
BGRA output; and when no such mode exists for the fill device or for the key
device (the vendor calls obeying the COM success contract), InitializeDevice
past its argument checks returns a failing HRESULT and leaves both device
flags false. -/
theorem mode_negotiation :
    (∀ env (w hh n d : Int) (wc wk ck dn : Bool) (s : WrapperState) m,
      (InitializeSingleDeckLinkOutput env w hh n d wc wk ck dn s).2.2.selected = some m →
      findDisplayMode env.modes w hh n d = some m ∧
      m.width = w ∧ m.height = hh ∧ m.frameDuration = d ∧ m.timeScale = n ∧
      m.supportHr = S_OK ∧ m.supported = true) ∧
    (∀ env (fi ki w hh n d : Int) (s : WrapperState),
      s.dllInitialized = true → s.fillDeviceInitialized = false →
      s.keyDeviceInitialized = false →
      ¬(fi < 0 ∨ (s.deckLinkDevices.length : Int) ≤ fi ∨ ki < 0 ∨
        (s.deckLinkDevices.length : Int) ≤ ki) →
      fi ≠ ki → comCoherent env.fill → comCoherent env.key →
      (findDisplayMode env.fill.modes w hh n d = none ∨
        findDisplayMode env.key.modes w hh n d = none) →
      FAILED (InitializeDevice env fi ki w hh n d s).1 = true ∧
      (InitializeDevice env fi ki w hh n d s).2.fillDeviceInitialized = false ∧
      (InitializeDevice env fi ki w hh n d s).2.keyDeviceInitialized = false) := by
  constructor
  · intro env w hh n d wc wk ck dn s m hsel
    have hf := single_selected hsel
    have hp := findDisplayMode_spec hf
    exact ⟨hf, hp.1, hp.2.1, hp.2.2.1, hp.2.2.2.1, hp.2.2.2.2.1, hp.2.2.2.2.2⟩
  · intro env fi ki w hh n d s h1 h2 h3 h4 h5 hcf hck hnone
    have hred : InitializeDevice env fi ki w hh n d s
        = initDeviceAfterFill env.key ki w hh n d
            (initDeviceFillStage env.fill fi w hh n d (ReleaseSelectedDeviceResources s)) := by
      unfold InitializeDevice
      rw [if_neg (by simp [h1]), if_neg (by simp [h2, h3]), if_neg h4, if_neg h5]
    rw [hred]
    have hdllf : (initDeviceFillStage env.fill fi w hh n d
        (ReleaseSelectedDeviceResources s)).2.dllInitialized = true := by
      rw [fillStage_dllInitialized]
      exact h1
    have hfail : FAILED (initDeviceAfterFill env.key ki w hh n d
        (initDeviceFillStage env.fill fi w hh n d (ReleaseSelectedDeviceResources s))).1
          = true := by
      by_cases hF : FAILED (initDeviceFillStage env.fill fi w hh n d
          (ReleaseSelectedDeviceResources s)).1 = true
      · rw [afterFill_of_fail env.key ki w hh n d hF]
        exact hF
      · cases hnone with
        | inl hfillnone =>
            exfalso
            apply hF
            rw [fillStage_fst]
            exact single_no_mode_fails true true true hcf (by exact h1) hfillnone
        | inr hkeynone =>
            rw [afterFill_of_ok env.key ki w hh n d (by simpa using hF)]
            have hkfail : FAILED (initDeviceKeyStage env.key ki w hh n d
                { (initDeviceFillStage env.fill fi w hh n d
                    (ReleaseSelectedDeviceResources s)).2 with
                  fillDeviceInitialized := true }).1 = true := by
              rw [keyStage_fst]
              exact single_no_mode_fails false false false hck (by exact hdllf) hkeynone
            rw [afterKey_of_fail hkfail]
            exact hkfail
    have hcl := afterFill_cleared env.key ki w hh n d hfail
    exact ⟨hfail, hcl.1, hcl.2.1⟩

theorem mode_negotiation_witness :
    (InitializeSingleDeckLinkOutput envGood 1920 1080 30000 1000 true true true false
        sDll).2.2.selected = some mode1080 ∧
    (findDisplayMode envGood.modes 1920 1080 30000 1000 = some mode1080 ∧
      mode1080.width = 1920 ∧ mode1080.height = 1080 ∧ mode1080.frameDuration = 1000 ∧
      mode1080.timeScale = 30000 ∧ mode1080.supportHr = S_OK ∧ mode1080.supported = true) ∧
    (FAILED (InitializeDevice ⟨envNoModes, envNoModes⟩ 0 1 1920 1080 30000 1000
        sTwoDevs).1 = true ∧
      (InitializeDevice ⟨envNoModes, envNoModes⟩ 0 1 1920 1080 30000 1000
        sTwoDevs).2.fillDeviceInitialized = false ∧
      (InitializeDevice ⟨envNoModes, envNoModes⟩ 0 1 1920 1080 30000 1000
        sTwoDevs).2.keyDeviceInitialized = false) :=
  ⟨by decide,
   mode_negotiation.1 envGood 1920 1080 30000 1000 true true true false sDll mode1080
     (by decide),
   mode_negotiation.2 ⟨envNoModes, envNoModes⟩ 0 1 1920 1080 30000 1000 sTwoDevs
     rfl rfl rfl (by decide) (by decide)
     (by exact ⟨fun _ => rfl, fun _ => rfl, fun _ => rfl⟩)
     (by exact ⟨fun _ => rfl, fun _ => rfl, fun _ => rfl⟩) (Or.inl (by decide))⟩

/-- C7: the keyer-enabled flag accurately records keyer state: it holds in
every reachable state only with the fill device initialized and the keyer
interface present, the invariant is preserved by every exported call,
EnableKeyer leaves it true exactly when the vendor Enable call succeeded,
DisableKeyer on an enabled keyer leaves it false exactly when the vendor
Disable call succeeded, SetKeyerLevel returns E_FAIL while it is false, and
IsKeyerActive reports its current value. -/
theorem keyer_flag_tracks :
    (∀ s : WrapperState, Reachable s → KeyerInv s) ∧
    (∀ s t : WrapperState, KeyerInv s → Step s t → KeyerInv t) ∧
    (∀ env (b : Bool) (s : WrapperState), s.fillDeviceInitialized = true →
      s.fillDeckLinkKeyer = true →
      ((EnableKeyer env b s).2.keyerEnabled = true ↔ FAILED env.enableHr = false)) ∧
    (∀ env (s : WrapperState), s.fillDeviceInitialized = true →
      s.fillDeckLinkKeyer = true → s.keyerEnabled = true →
      ((DisableKeyer env s).2.keyerEnabled = false ↔ FAILED env.disableHr = false)) ∧
    (∀ env (lv : Nat) (s : WrapperState), s.keyerEnabled = false →
      (SetKeyerLevel env lv s).1 = E_FAIL) ∧
    (∀ s : WrapperState, KeyerInv s → (IsKeyerActive false s).2 = some s.keyerEnabled) := by
  refine ⟨fun s h => keyerInv_reachable h, fun s t h st => keyerInv_step h st, ?_, ?_, ?_, ?_⟩
  · intro env b s h1 h2
    unfold EnableKeyer
    rw [if_neg (by simp [h1, h2])]
    cases hF : FAILED env.enableHr
    · simp [hF]
    · simp [hF]
  · intro env s h1 h2 h3
    unfold DisableKeyer
    rw [if_neg (by simp [h1, h2]), if_neg (by simp [h3])]
    cases hF : FAILED env.disableHr
    · simp [hF]
    · simp [hF, h3]
  · intro env lv s h
    unfold SetKeyerLevel
    by_cases hg : (!s.fillDeviceInitialized || !s.fillDeckLinkKeyer) = true
    · rw [if_pos hg]
    · rw [if_neg hg, if_pos (by simp [h])]
  · intro s h
    unfold IsKeyerActive
    rw [if_neg (by simp)]
    by_cases hg : (!s.fillDeviceInitialized || !s.fillDeckLinkKeyer) = true
    · rw [if_pos hg]
      have hk : s.keyerEnabled = false := by
        cases hke : s.keyerEnabled
        · rfl
        · obtain ⟨a, b⟩ := h hke
          simp [a, b] at hg
      rw [hk]
    · rw [if_neg hg]

theorem keyer_flag_tracks_witness :
    KeyerInv initState ∧
    KeyerInv (EnableKeyer ⟨S_OK, S_OK, S_OK⟩ true sKeyer).2 ∧
    ((EnableKeyer ⟨S_OK, S_OK, S_OK⟩ true sKeyer).2.keyerEnabled = true
      ↔ FAILED S_OK = false) ∧
    ((DisableKeyer ⟨S_OK, S_OK, S_OK⟩ { sKeyer with keyerEnabled := true }).2.keyerEnabled
        = false ↔ FAILED S_OK = false) ∧
    (SetKeyerLevel ⟨S_OK, S_OK, S_OK⟩ 128 initState).1 = E_FAIL ∧
    (IsKeyerActive false sKeyer).2 = some sKeyer.keyerEnabled :=
  ⟨keyer_flag_tracks.1 initState Reachable.init,
   keyer_flag_tracks.2.1 sKeyer (EnableKeyer ⟨S_OK, S_OK, S_OK⟩ true sKeyer).2
     (by intro _; exact ⟨rfl, rfl⟩) (Step.enableKeyer ⟨S_OK, S_OK, S_OK⟩ true sKeyer),
   keyer_flag_tracks.2.2.1 ⟨S_OK, S_OK, S_OK⟩ true sKeyer rfl rfl,
   keyer_flag_tracks.2.2.2.1 ⟨S_OK, S_OK, S_OK⟩ { sKeyer with keyerEnabled := true }
     rfl rfl rfl,
   keyer_flag_tracks.2.2.2.2.1 ⟨S_OK, S_OK, S_OK⟩ 128 initState rfl,
   keyer_flag_tracks.2.2.2.2.2 sKeyer (by intro _; exact ⟨rfl, rfl⟩)⟩
